import Mathlib

/-!
Verification development for the slack-jirabot source (the `Bot` class).

The JavaScript source is shallowly embedded: JS numbers used as
millisecond timestamps become `Int`, `undefined`-able values become
`Option`, the `ticketBuffer` `Map` becomes an association list in
insertion order, thrown exceptions become `Except String`, and the two
external pure libraries (`moment` and `jira2slack`) become abstract total
string functions.  The regular-expression engine is external to the
source, so `message.match(this.ticketRegExp)` is passed in as the
in-order list of occurrences it returns.
-/

namespace JiraBot

/-! ## Timestamps and the ticket buffer (`constructor`, `hashTicket`) -/

/-- JS numeric timestamps and durations, in milliseconds. -/
abbrev Millis := Int

/-- `this.TICKET_BUFFER_LENGTH`: length of buffer to prevent a ticket from
being responded to (milliseconds). -/
def TICKET_BUFFER_LENGTH : Millis := 300000

/-- `hashTicket(channel, ticket)`: hashes the channel + ticket combo. -/
def hashTicket (channel ticket : String) : String :=
  channel ++ "-" ++ ticket

/-- `this.ticketBuffer`: a JS `Map` from ticket hash to the last time the
ticket was responded to, kept in insertion order. -/
abbrev TicketBuffer := List (String × Millis)

/-- `this.ticketBuffer.get(h) || 0`: a missing entry reads as `0`
(and a stored `0` is itself falsy, which also yields `0`). -/
def bufferGetD (buf : TicketBuffer) (k : String) : Millis :=
  match buf.lookup k with
  | some t => t
  | none => 0

/-- `Map.prototype.set`: replace the value of an existing key in place, or
append a new binding at the end. -/
def bufferSet : TicketBuffer → String → Millis → TicketBuffer
  | [], k, v => [(k, v)]
  | (k1, v1) :: rest, k, v =>
    if k1 = k then (k, v) :: rest else (k1, v1) :: bufferSet rest k v

/-- JS string truthiness: `undefined` and the empty string are falsy. -/
def truthy : Option String → Bool
  | none => false
  | some s => s != ""

/-! ## `parseTickets` -/

/-- The mutable locals of the `found.forEach` loop in `parseTickets`:
`retVal`, `uniques` (an object used as a set of already-pushed tickets)
and the updated `this.ticketBuffer`. -/
structure ParseAcc where
  retVal : List String
  uniques : List String
  ticketBuffer : TicketBuffer

/-- The `found.forEach((ticket) => ...)` loop body of `parseTickets`
(lines 212-222): a ticket is pushed when it is not already in `uniques`
and `now - (this.ticketBuffer.get(ticketHash) || 0) > this.TICKET_BUFFER_LENGTH`;
pushing also records `uniques[ticket] = 1` and
`this.ticketBuffer.set(ticketHash, now)`. -/
def parseTicketsLoop (channel : String) (now : Millis) :
    List String → ParseAcc → ParseAcc
  | [], acc => acc
  | t :: ts, acc =>
    let h := hashTicket channel t
    if acc.uniques.contains t = false ∧
        now - bufferGetD acc.ticketBuffer h > TICKET_BUFFER_LENGTH then
      parseTicketsLoop channel now ts
        { retVal := acc.retVal ++ [t]
          uniques := acc.uniques ++ [t]
          ticketBuffer := bufferSet acc.ticketBuffer h now }
    else
      parseTicketsLoop channel now ts acc

/-- `parseTickets(channel, message)`: parse out JIRA tickets from a
message, returning unique tickets that have not been responded to
recently, together with the updated `this.ticketBuffer`.

The regex engine is external to the source; `found` stands for
`message.match(this.ticketRegExp)`, the in-order list of occurrences of
the configured pattern in `message` (`none` when there is no match).
The early return on `!channel || !message` is the two-level match plus
the emptiness test. -/
def parseTickets (buffer : TicketBuffer) (channel message : Option String)
    (found : Option (List String)) (now : Millis) :
    List String × TicketBuffer :=
  match channel, message with
  | some ch, some m =>
    if ch = "" ∨ m = "" then ([], buffer)
    else
      match found with
      | some l =>
        if l.length > 0 then
          let acc := parseTicketsLoop ch now l
            { retVal := [], uniques := [], ticketBuffer := buffer }
          (acc.retVal, acc.ticketBuffer)
        else ([], buffer)
      | none => ([], buffer)
  | _, _ => ([], buffer)

/-- Specification-side description of first-occurrence deduplication:
keep each element not in `seen` at its first occurrence, in order of
first appearance. -/
def dedupFirstFrom : List String → List String → List String
  | _, [] => []
  | seen, t :: ts =>
    if seen.contains t then dedupFirstFrom seen ts
    else t :: dedupFirstFrom (seen ++ [t]) ts

/-! ## Issue data model (the shape `issueResponse` reads) -/

/-- A JIRA object carrying only a display name (`status`, `priority`). -/
structure NamedEntity where
  name : String
deriving DecidableEq

/-- A JIRA user object (`reporter`, `assignee`). -/
structure JiraUser where
  name : String
  displayName : String
deriving DecidableEq

/-- The `issue.fields` object.  Fields that the tracker can omit are
`Option`; `extra` carries the tracker-specific custom fields (the sprint
field among them) as an association list of string arrays. -/
structure IssueFields where
  summary : Option String
  description : Option String
  created : Option String
  updated : Option String
  status : Option NamedEntity
  priority : Option NamedEntity
  reporter : Option JiraUser
  assignee : Option JiraUser
  extra : List (String × List String)
deriving DecidableEq

/-- An issue object returned by JIRA. -/
structure Issue where
  key : String
  fields : IssueFields
deriving DecidableEq

/-! ## Configuration -/

/-- An operator-authored `pretext`/`title` template string, rendered by
`eval(...)` with `issue` in scope: an arbitrary computation from the
issue to a string, which may throw (for a malformed template). -/
def JsTemplate : Type := Issue → Except String String

/-- One named entry of `config.responseFormats`. -/
structure ResponseFormat where
  description : Bool
  respondInThread : Bool
  pretext : Option JsTemplate
  title : Option JsTemplate
  hideFooter : Bool
  fields : Option (List String)

/-- The `config.jira` section (connection fields that only feed the
browse link, plus the formatting-relevant fields).  `customFields` is
`Object.keys(config.jira.customFields)` in insertion order: the code
only ever iterates the keys of that object. -/
structure JiraConfig where
  protocol : String
  host : String
  port : Nat
  base : String
  sprintField : String
  customFields : List String
  atResponseFormat : String
  responseFormat : String

/-- The bot configuration (the parts the embedded functions read). -/
structure Config where
  jira : JiraConfig
  usermap : List (String × String)
  channelFormats : List (String × String)
  responseFormats : List (String × ResponseFormat)

/-! ## Small helpers used by the formatters -/

/-- JS `a || b` on strings: the empty string is falsy. -/
def jsOr (a b : String) : String := if a = "" then b else a

/-- Models `moment(x).calendar()`: `moment` accepts `undefined` (treated
as the current instant) and any string (an unparsable one renders as an
invalid-date marker); `.calendar()` always returns a string and never
throws.  The exact rendering lives in the external library and is
abstracted; only totality and the argument matter here. -/
def momentCalendar : Option String → String
  | some s => s
  | none => "Today"

/-- Models `J2S.toSlack`: the external jira2slack markdown converter, a
total pure string transformation (abstracted; only totality matters). -/
def toSlack (s : String) : String := s

/-- `jira2Slack(username)`: look up a JIRA username in
`config.usermap`, yielding `@slackname` when the map holds a truthy
entry and the empty string otherwise. -/
def jira2Slack (usermap : List (String × String)) (username : String) : String :=
  match usermap.lookup username with
  | some u => if u = "" then "" else "@" ++ u
  | none => ""

/-- `formatIssueDescription(description)`: substitute the placeholder
for a missing (or empty, hence falsy) description and convert. -/
def formatIssueDescription (description : Option String) : String :=
  toSlack
    (match description with
     | some d => if d = "" then "Ticket does not contain a description" else d
     | none => "Ticket does not contain a description")

/-- `package.json` version (the file is outside `src/`; value immaterial). -/
def PACKAGE_version : String := "1.0.0"

/-- `package.json` homepage (the file is outside `src/`; value immaterial). -/
def PACKAGE_homepage : String := "https://github.com/tnwinc/slack-jirabot"

/-- The footer string of line 103. -/
def footerText : String :=
  "Slack Jira " ++ PACKAGE_version ++ " - " ++ PACKAGE_homepage

/-- The base-path normalization of `buildIssueLink`: the regex
`/^\/|\/$/g` strips one leading and one trailing forward slash. -/
def stripSlashes (s : String) : String :=
  let s1 := if s.startsWith ("/") then s.drop 1 else s
  if s1.endsWith ("/") then s1.dropRight 1 else s1

/-- `buildIssueLink(issueKey)`: construct a browse link from the
configured protocol, host, port and normalized base path. -/
def buildIssueLink (cfg : Config) (issueKey : String) : String :=
  let base :=
    if cfg.jira.base = "" then "/browse/"
    else "/" ++ stripSlashes cfg.jira.base ++ "/browse/"
  cfg.jira.protocol ++ "://" ++ cfg.jira.host ++ ":" ++
    toString cfg.jira.port ++ base ++ issueKey

/-! ## `parseSprint` -/

/-- The capture group of the sprint-name regex (one or more non-comma
characters) attempted at the current position: the leading literal
`,name=` has already been consumed; greedily take non-comma characters
and require at least one of them, followed by a comma. -/
def captureName (cs : List Char) : Option (List Char) :=
  let tok := cs.takeWhile (fun c => c != ',')
  if tok = [] then none
  else if cs.dropWhile (fun c => c != ',') = [] then none
  else some tok

/-- `sprintString.match(/,name=([^,]+),/)`: scan positions left to
right; at each position try the literal `,name=` followed by
`captureName`; on failure advance one position, exactly as the regex
engine does. -/
def findNameToken : List Char → Option (List Char)
  | ',' :: 'n' :: 'a' :: 'm' :: 'e' :: '=' :: rest =>
    (match captureName rest with
     | some tok => some tok
     | none => findNameToken ('n' :: 'a' :: 'm' :: 'e' :: '=' :: rest))
  | _ :: cs => findNameToken cs
  | [] => none

/-- The first capture group of `sprintString.match(/,name=([^,]+),/)`,
as a string. -/
def matchSprintName (s : String) : Option String :=
  match findNameToken s.data with
  | some tok => some (String.mk tok)
  | none => none

/-- `parseSprint(customField)`: when the custom field holds a non-empty
array, `customField.pop()` removes and returns its last element (the
array mutation is returned as the second component); the sprint name is
the `name=` capture of that element, or the empty string when the match
fails.  An absent or empty array yields the empty string. -/
def parseSprint : Option (List String) → String × Option (List String)
  | none => ("", none)
  | some l =>
    if l.length > 0 then
      match matchSprintName (l.getLastD ("")) with
      | some name => (name, some l.dropLast)
      | none => ("", some l.dropLast)
    else ("", some l)

/-- Replace the value bound to `key` in place (JS objects have unique
keys, so only the first binding matters). -/
def setAssoc (key : String) (v : List String) :
    List (String × List String) → List (String × List String)
  | [] => []
  | (k1, v1) :: rest =>
    if k1 = key then (key, v) :: rest else (k1, v1) :: setAssoc key v rest

/-- Write back the (possibly popped) sprint array: `customField.pop()`
mutates the array object in place, so when the field was present the
issue now holds the shortened array; when it was absent nothing
happened. -/
def writeExtra (issue : Issue) (key : String) : Option (List String) → Issue
  | none => issue
  | some l =>
    { issue with
      fields := { issue.fields with extra := setAssoc key l issue.fields.extra } }

/-! ## `issueResponse` -/

/-- A value placed in an attachment field: a string from a built-in
formatter, a raw custom-field array, or JS `undefined` passed through. -/
inductive FieldValue where
  | str (s : String)
  | arr (l : List String)
  | undef
deriving DecidableEq

/-- One entry of `response.fields` (after `jiraField['title'] = field`). -/
structure AttachmentField where
  title : String
  value : FieldValue
  short : Bool
deriving DecidableEq

/-- The composed response attachment.  `fields` entries are `Option`
because line 121 pushes `jiraField` unconditionally, and `jiraField` can
still be `null` at that point. -/
structure Attachment where
  fallback : Option String
  respondInThread : Bool
  text : Option String
  mrkdwn_in : List String
  pretext : Option String
  title : Option String
  title_link : String
  footer : Option String
  fields : List (Option AttachmentField)
deriving DecidableEq

/-- What a `fieldFormatters` entry returns before the title is attached. -/
structure FmtRes where
  value : FieldValue
  short : Bool
deriving DecidableEq

/-- The keys of the `fieldFormatters` object literal (lines 63-81). -/
def builtinFieldNames : List String :=
  ["Created", "Updated", "Status", "Priority", "Reporter", "Assignee", "Sprint"]

/-- `fieldFormatters[field]()`: run one built-in formatter.  A formatter
can throw a `TypeError` by dereferencing an absent issue field
(`status.name`, `priority.name`, `reporter.name`); the Sprint formatter
returns `undefined` (`none`) when no sprint field is configured, and
pops the sprint array otherwise, so the possibly-mutated issue is
returned alongside.  Names outside the object fall to the final arm
(never consulted: the caller checks `hasOwnProperty` first). -/
def fieldFormatters (cfg : Config) (issue : Issue) (field : String) :
    Except String (Option FmtRes × Issue) :=
  match field with
  | "Created" =>
    Except.ok (some ⟨FieldValue.str (momentCalendar issue.fields.created), true⟩, issue)
  | "Updated" =>
    Except.ok (some ⟨FieldValue.str (momentCalendar issue.fields.updated), true⟩, issue)
  | "Status" =>
    match issue.fields.status with
    | some st => Except.ok (some ⟨FieldValue.str st.name, true⟩, issue)
    | none => Except.error "TypeError: Cannot read properties of undefined (reading name)"
  | "Priority" =>
    match issue.fields.priority with
    | some p => Except.ok (some ⟨FieldValue.str p.name, true⟩, issue)
    | none => Except.error "TypeError: Cannot read properties of undefined (reading name)"
  | "Reporter" =>
    match issue.fields.reporter with
    | some r =>
      Except.ok
        (some ⟨FieldValue.str (jsOr (jira2Slack cfg.usermap r.name) r.displayName), true⟩,
         issue)
    | none => Except.error "TypeError: Cannot read properties of undefined (reading name)"
  | "Assignee" =>
    match issue.fields.assignee with
    | some a =>
      Except.ok
        (some ⟨FieldValue.str (jsOr (jira2Slack cfg.usermap a.name) a.displayName), true⟩,
         issue)
    | none => Except.ok (some ⟨FieldValue.str "Unassigned", true⟩, issue)
  | "Sprint" =>
    if cfg.jira.sprintField = "" then Except.ok (none, issue)
    else
      let r := parseSprint (issue.fields.extra.lookup cfg.jira.sprintField)
      Except.ok
        (some ⟨FieldValue.str (jsOr r.1 "Not Assigned"), false⟩,
         writeExtra issue cfg.jira.sprintField r.2)
  | _ => Except.ok (none, issue)

/-- `issue.fields[customField]` as a display value: the raw array when
the key is present on the issue, JS `undefined` otherwise. -/
def lookupFieldValue (issue : Issue) (key : String) : FieldValue :=
  match issue.fields.extra.lookup key with
  | some l => FieldValue.arr l
  | none => FieldValue.undef

/-- One iteration of the `for (const field of responseFormat.fields)`
loop (lines 108-122), producing the entry pushed onto `response.fields`
and the issue as left by the formatter.  A built-in name runs its
formatter and then assigns `jiraField['title'] = field`, which throws
when the formatter returned `undefined`.  A non-built-in name is
overwritten once per key of `config.jira.customFields` (so the last key
wins), and when there are no keys `jiraField` stays `null`. -/
def composeField (cfg : Config) (issue : Issue) (field : String) :
    Except String (Option AttachmentField × Issue) :=
  if builtinFieldNames.contains field then
    match fieldFormatters cfg issue field with
    | Except.error e => Except.error e
    | Except.ok (some v, issue1) =>
      Except.ok (some ⟨field, v.value, v.short⟩, issue1)
    | Except.ok (none, _) =>
      Except.error "TypeError: Cannot set properties of undefined (setting title)"
  else
    match cfg.jira.customFields.getLast? with
    | some ck => Except.ok (some ⟨field, lookupFieldValue issue ck, false⟩, issue)
    | none => Except.ok (none, issue)

/-- The whole field loop, threading the issue (the sprint pop is a
mutation the next iteration observes) and propagating any throw. -/
def composeFields (cfg : Config) :
    List String → Issue → Except String (List (Option AttachmentField) × Issue)
  | [], issue => Except.ok ([], issue)
  | f :: fs, issue =>
    match composeField cfg issue f with
    | Except.error e => Except.error e
    | Except.ok (e, issue1) =>
      match composeFields cfg fs issue1 with
      | Except.error e2 => Except.error e2
      | Except.ok (rest, issue2) => Except.ok (e :: rest, issue2)

/-- Render an optional template with the issue in scope, propagating a
throw from `eval`. -/
def renderTemplate (t : Option JsTemplate) (issue : Issue) :
    Except String (Option String) :=
  match t with
  | none => Except.ok none
  | some f =>
    match f issue with
    | Except.ok s => Except.ok (some s)
    | Except.error e => Except.error e

/-- `issueResponse(issue, format)` (lines 57-126): build the response
attachment for an issue under the named format profile.  Statement order
follows the source: description text, thread flag, fallback, pretext
`eval`, title `eval` (default: the summary), title link, footer, then
the field loop.  A throw anywhere (template rendering, a formatter
dereferencing an absent field, the title assignment on an `undefined`
formatter result, or an unknown profile name) aborts the whole
composition.  The possibly sprint-popped issue is returned alongside. -/
def issueResponse (cfg : Config) (issue : Issue) (format : String) :
    Except String (Attachment × Issue) :=
  match cfg.responseFormats.lookup format with
  | none => Except.error "TypeError: Cannot read properties of undefined (reading description)"
  | some rf =>
    let text :=
      if rf.description then some (formatIssueDescription issue.fields.description)
      else none
    match renderTemplate rf.pretext issue with
    | Except.error e => Except.error e
    | Except.ok pretext =>
      match
        (match rf.title with
         | some t =>
           (match t issue with
            | Except.ok s => Except.ok (some s)
            | Except.error e => Except.error e)
         | none => Except.ok issue.fields.summary : Except String (Option String))
      with
      | Except.error e => Except.error e
      | Except.ok title =>
        match
          (match rf.fields with
           | some fl => composeFields cfg fl issue
           | none => Except.ok ([], issue))
        with
        | Except.error e => Except.error e
        | Except.ok (fieldList, issue1) =>
          Except.ok
            ({ fallback := issue.fields.summary
               respondInThread := rf.respondInThread
               text := text
               mrkdwn_in := ["text"]
               pretext := pretext
               title := title
               title_link := buildIssueLink cfg issue.key
               footer := if rf.hideFooter then none else some footerText
               fields := fieldList }, issue1)

/-! ## `handleMessage` (dispatcher) -/

/-- The inbound Slack message fields `handleMessage` reads. -/
structure SlackMessage where
  type : String
  text : Option String
  channel : Option String
  event : Option String

/-- The response-format selection expression of lines 315-319, evaluated
for every ticket surviving extraction: a direct-mention event takes
`config.jira.atResponseFormat`; otherwise a truthy per-channel entry of
`config.channelFormats` wins, else `config.jira.responseFormat`. -/
def selectResponseFormat (cfg : Config) (message : SlackMessage) : String :=
  if message.event = some ("direct_mention") then cfg.jira.atResponseFormat
  else
    match message.channel with
    | some c =>
      match cfg.channelFormats.lookup c with
      | some f => if f = "" then cfg.jira.responseFormat else f
      | none => cfg.jira.responseFormat
    | none => cfg.jira.responseFormat

/-- The observable outcome of handling one extracted ticket: a reply
carrying the composed attachment (threaded or not), or the
`logger.error` of the promise catch (line 342). -/
inductive ProcessOutcome where
  | replied (inThread : Bool) (attachment : Attachment)
  | errorLogged (message : String)

/-- Handling of one extracted issue id (lines 311-343): fetch the issue
(`fetch` models `this.jira.findIssue`), compose the attachment under the
selected profile, and reply; any rejection or throw lands in the single
`.catch`, which logs and drops the notification. -/
def processIssue (cfg : Config) (message : SlackMessage)
    (fetch : String → Except String Issue) (issueId : String) : ProcessOutcome :=
  match fetch issueId with
  | Except.error _ =>
    ProcessOutcome.errorLogged ("Got an error trying to find " ++ issueId)
  | Except.ok issue =>
    match issueResponse cfg issue (selectResponseFormat cfg message) with
    | Except.error _ =>
      ProcessOutcome.errorLogged ("Got an error trying to find " ++ issueId)
    | Except.ok (att, _) => ProcessOutcome.replied att.respondInThread att

/-- `handleMessage(message)`: only an ambient-typed message with truthy
text is processed; its tickets are extracted through `parseTickets`
(updating the buffer) and each is handled independently.  Returns the
per-ticket outcomes and the updated ticket buffer. -/
def handleMessage (cfg : Config) (buffer : TicketBuffer) (message : SlackMessage)
    (found : Option (List String)) (fetch : String → Except String Issue)
    (now : Millis) : List ProcessOutcome × TicketBuffer :=
  if message.type = "ambient" ∧ truthy message.text = true then
    let r := parseTickets buffer message.channel message.text found now
    (r.1.map (processIssue cfg message fetch), r.2)
  else ([], buffer)

/-- Decidable success test on a composition result. -/
def isOkResult (r : Except String (Attachment × Issue)) : Bool :=
  match r with
  | Except.ok _ => true
  | Except.error _ => false

/-- The issue carried out of a successful composition step, or the
given issue when the step threw (a throw aborts before any further
mutation is observable). -/
def sndIssue {α : Type} (r : Except String (α × Issue)) (dflt : Issue) : Issue :=
  match r with
  | Except.ok (_, i1) => i1
  | Except.error _ => dflt

/-- `b` agrees with `a` on every issue field except possibly the array
stored under the configured sprint custom field: the frame of
composition once the sprint pop is accounted for. -/
def PreservesNonSprint (cfg : Config) (a b : Issue) : Prop :=
  b.key = a.key ∧
  b.fields.summary = a.fields.summary ∧
  b.fields.description = a.fields.description ∧
  b.fields.created = a.fields.created ∧
  b.fields.updated = a.fields.updated ∧
  b.fields.status = a.fields.status ∧
  b.fields.priority = a.fields.priority ∧
  b.fields.reporter = a.fields.reporter ∧
  b.fields.assignee = a.fields.assignee ∧
  ∀ k, k ≠ cfg.jira.sprintField →
    b.fields.extra.lookup k = a.fields.extra.lookup k

/-! ## Concrete inputs for witnesses and counterexamples -/

/-- A profile rendering a built-in field and an unresolvable one. -/
def rfFieldsOnly : ResponseFormat :=
  { description := false, respondInThread := false, pretext := none,
    title := none, hideFooter := true, fields := some ["Status", "Mystery"] }

/-- Configuration with no custom-field mapping and no sprint field. -/
def cfgC2 : Config :=
  { jira :=
      { protocol := "https", host := "h", port := 443, base := "",
        sprintField := "", customFields := [],
        atResponseFormat := "full", responseFormat := "micro" }
    usermap := []
    channelFormats := []
    responseFormats := [("p", rfFieldsOnly)] }

/-- An issue with all the fields the profile above touches. -/
def issueC2 : Issue :=
  { key := "PROJ-1"
    fields :=
      { summary := some ("S"), description := none,
        created := some ("2024-01-01"), updated := some ("2024-01-02"),
        status := some ⟨"Open"⟩, priority := some ⟨"High"⟩,
        reporter := some ⟨"rep", "Reporter Name"⟩, assignee := none,
        extra := [] } }

/-- A profile whose operator-authored title template throws on `eval`. -/
def rfBadTemplate : ResponseFormat :=
  { description := false, respondInThread := false, pretext := none,
    title := some (fun _ => Except.error "SyntaxError: Unexpected token"),
    hideFooter := true, fields := none }

/-- Configuration whose default profile is the malformed-template one. -/
def cfgC4 : Config :=
  { jira :=
      { protocol := "https", host := "h", port := 443, base := "",
        sprintField := "", customFields := [],
        atResponseFormat := "full", responseFormat := "bad" }
    usermap := []
    channelFormats := []
    responseFormats := [("bad", rfBadTemplate)] }

/-- An ambient message for the malformed-template scenario. -/
def msgC4 : SlackMessage :=
  { type := "ambient", text := some ("see PROJ-1"), channel := some ("C"),
    event := none }

/-- A fetch collaborator that always finds `issueC2`. -/
def fetchC4 : String → Except String Issue := fun _ => Except.ok issueC2

/-- A profile rendering only the Sprint field. -/
def rfSprintOnly : ResponseFormat :=
  { description := false, respondInThread := false, pretext := none,
    title := none, hideFooter := true, fields := some ["Sprint"] }

/-- Configuration with a configured sprint custom field. -/
def cfg5 : Config :=
  { jira :=
      { protocol := "https", host := "h", port := 443, base := "",
        sprintField := "customfield_10000", customFields := [],
        atResponseFormat := "full", responseFormat := "micro" }
    usermap := []
    channelFormats := []
    responseFormats := [("sprints", rfSprintOnly)] }

/-- An issue whose sprint custom field lists two encoded sprints. -/
def is5 : Issue :=
  { key := "PROJ-5"
    fields :=
      { summary := some ("S"), description := none,
        created := none, updated := none,
        status := none, priority := none, reporter := none, assignee := none,
        extra := [("customfield_10000", ["x,name=S1,y", "x,name=S2,y"])] } }

/-- A profile listing every built-in field. -/
def rfAllBuiltins : ResponseFormat :=
  { description := false, respondInThread := false, pretext := none,
    title := none, hideFooter := true, fields := some builtinFieldNames }

/-- Configuration for the totality scenario: sprint field configured so
the Sprint formatter is applicable. -/
def cfgC10 : Config :=
  { jira :=
      { protocol := "https", host := "h", port := 443, base := "",
        sprintField := "sf", customFields := [],
        atResponseFormat := "full", responseFormat := "micro" }
    usermap := []
    channelFormats := []
    responseFormats := [("full", rfAllBuiltins)] }

/-- An issue missing `created` and `updated` (and `assignee`) but
carrying `status`, `priority` and `reporter`. -/
def issueC10 : Issue :=
  { key := "PROJ-10"
    fields :=
      { summary := some ("S"), description := none,
        created := none, updated := none,
        status := some ⟨"Open"⟩, priority := some ⟨"High"⟩,
        reporter := some ⟨"rep", "Reporter Name"⟩, assignee := none,
        extra := [] } }

/-- Configuration for the profile-selection witness: a channel override
for `C42`, distinct default and at-mention profiles. -/
def cfgC1 : Config :=
  { jira :=
      { protocol := "https", host := "h", port := 443, base := "",
        sprintField := "", customFields := [],
        atResponseFormat := "full", responseFormat := "micro" }
    usermap := []
    channelFormats := [("C42", "minimal")]
    responseFormats := [] }

/-- A direct-mention-style message in the overridden channel. -/
def msgDM : SlackMessage :=
  { type := "ambient", text := some ("t"), channel := some ("C42"),
    event := some ("direct_mention") }

/-- An ordinary message in the overridden channel. -/
def msgOv : SlackMessage :=
  { type := "ambient", text := some ("t"), channel := some ("C42"),
    event := none }

/-- An ordinary message in a channel with no override. -/
def msgPlain : SlackMessage :=
  { type := "ambient", text := some ("t"), channel := some ("C7"),
    event := none }

/-- Configuration with a configured sprint field named `greenhopper`. -/
def cfg7 : Config :=
  { jira :=
      { protocol := "https", host := "h", port := 443, base := "",
        sprintField := "greenhopper", customFields := [],
        atResponseFormat := "full", responseFormat := "micro" }
    usermap := []
    channelFormats := []
    responseFormats := [] }

/-- An issue whose sprint field ends in an element with no `name=` token. -/
def issue7 : Issue :=
  { key := "PROJ-7"
    fields :=
      { summary := some ("S"), description := none,
        created := none, updated := none,
        status := none, priority := none, reporter := none, assignee := none,
        extra := [("greenhopper", ["a,name=Alpha,b", "junk"])] } }

/-! ## Helper lemmas -/

/-- Lookup after `Map.set` at the written key reads the written value. -/
lemma lookup_bufferSet_self (buf : TicketBuffer) (k : String) (v : Millis) :
    (bufferSet buf k v).lookup k = some v := by
  induction buf with
  | nil => simp [bufferSet, List.lookup]
  | cons p rest ih =>
    obtain ⟨k1, v1⟩ := p
    by_cases h : k1 = k
    · subst h; simp [bufferSet, List.lookup]
    · have hbeq : (k == k1) = false := beq_eq_false_iff_ne.mpr (fun he => h he.symm)
      simp [bufferSet, h, List.lookup, hbeq, ih]

/-- Lookup after `Map.set` at any other key is unchanged. -/
lemma lookup_bufferSet_ne (buf : TicketBuffer) (k k1 : String) (v : Millis)
    (h : k1 ≠ k) : (bufferSet buf k v).lookup k1 = buf.lookup k1 := by
  have hbeq : (k1 == k) = false := beq_eq_false_iff_ne.mpr h
  induction buf with
  | nil => simp [bufferSet, List.lookup, hbeq]
  | cons p rest ih =>
    obtain ⟨k2, v2⟩ := p
    by_cases h2 : k2 = k
    · subst h2; simp [bufferSet, List.lookup, hbeq]
    · simp [bufferSet, h2, List.lookup, ih]

/-- Defaulted read after `Map.set` at the written key. -/
lemma bufferGetD_bufferSet_self (buf : TicketBuffer) (k : String) (v : Millis) :
    bufferGetD (bufferSet buf k v) k = v := by
  simp [bufferGetD, lookup_bufferSet_self]

/-- For a fixed channel, the ticket hash determines the ticket. -/
lemma hashTicket_inj {ch a b : String} (h : hashTicket ch a = hashTicket ch b) :
    a = b := by
  unfold hashTicket at h
  have h2 := congrArg String.data h
  simp only [String.data_append, show ("-" : String).data = ['-'] from rfl] at h2
  exact String.ext (List.append_cancel_left h2)

/-- Behaviour of `parseTickets` on a single extracted ticket: allowed
exactly when the buffered time is stale, and allowing writes the entry. -/
lemma parseTickets_single (buf : TicketBuffer) (ch m k : String) (now : Millis)
    (hch : ch ≠ "") (hm : m ≠ "") :
    parseTickets buf (some ch) (some m) (some [k]) now
      = if now - bufferGetD buf (hashTicket ch k) > TICKET_BUFFER_LENGTH
        then ([k], bufferSet buf (hashTicket ch k) now)
        else ([], buf) := by
  by_cases hfresh : now - bufferGetD buf (hashTicket ch k) > TICKET_BUFFER_LENGTH
  · rw [if_pos hfresh]
    simp [parseTickets, hch, hm, parseTicketsLoop, hfresh]
  · rw [if_neg hfresh]
    simp [parseTickets, hch, hm, parseTicketsLoop, hfresh]

/-- On a buffer with no live entries for the channel, the extraction loop
emits exactly the first occurrence of each distinct ticket, in order. -/
lemma parseTicketsLoop_fresh (ch : String) (now : Millis)
    (hnow : now > TICKET_BUFFER_LENGTH) :
    ∀ (ts : List String) (acc : ParseAcc),
      (∀ t, acc.uniques.contains t = false →
        acc.ticketBuffer.lookup (hashTicket ch t) = none) →
      (parseTicketsLoop ch now ts acc).retVal
        = acc.retVal ++ dedupFirstFrom acc.uniques ts := by
  intro ts
  induction ts with
  | nil => intro acc hinv; simp [parseTicketsLoop, dedupFirstFrom]
  | cons t ts ih =>
    intro acc hinv
    by_cases hmem : t ∈ acc.uniques
    · rw [show parseTicketsLoop ch now (t :: ts) acc = parseTicketsLoop ch now ts acc from by
        simp [parseTicketsLoop, hmem]]
      rw [ih acc hinv]
      simp [dedupFirstFrom, hmem]
    · have hcf : acc.uniques.contains t = false := by
        simp [List.contains, List.elem_eq_mem, hmem]
      have hlk : acc.ticketBuffer.lookup (hashTicket ch t) = none := hinv t hcf
      have hcond : now - bufferGetD acc.ticketBuffer (hashTicket ch t) > TICKET_BUFFER_LENGTH := by
        simpa [bufferGetD, hlk] using hnow
      rw [show parseTicketsLoop ch now (t :: ts) acc
            = parseTicketsLoop ch now ts
                { retVal := acc.retVal ++ [t], uniques := acc.uniques ++ [t],
                  ticketBuffer := bufferSet acc.ticketBuffer (hashTicket ch t) now } from by
        simp [parseTicketsLoop, hmem, hcond]]
      rw [ih _ ?_]
      · simp [dedupFirstFrom, hmem]
      · intro t1 ht1
        simp only [List.contains, List.elem_eq_mem, List.mem_append, List.mem_singleton,
          decide_eq_false_iff_not, not_or] at ht1
        obtain ⟨h1, h2⟩ := ht1
        rw [lookup_bufferSet_ne _ _ _ _ (fun hE => h2 (hashTicket_inj hE))]
        exact hinv t1 (by simp [List.contains, List.elem_eq_mem, h1])

/-- Boolean membership agrees with propositional membership. -/
lemma contains_iff_mem (l : List String) (a : String) :
    l.contains a = true ↔ a ∈ l := by
  simp [List.contains, List.elem_eq_mem]

/-- The title of the entry produced for one declared field name: a
built-in name or one backed by custom-field keys carries its own name;
otherwise the pushed entry is the null placeholder. -/
lemma composeField_title (cfg : Config) (issue : Issue) (f : String)
    (e : Option AttachmentField) (i1 : Issue)
    (h : composeField cfg issue f = Except.ok (e, i1)) :
    e.map AttachmentField.title
      = if builtinFieldNames.contains f || !cfg.jira.customFields.isEmpty
        then some f else none := by
  unfold composeField at h
  by_cases hb : builtinFieldNames.contains f = true
  · have hmem : f ∈ builtinFieldNames := (contains_iff_mem _ _).mp hb
    rw [if_pos hb] at h
    cases hff : fieldFormatters cfg issue f with
    | error e2 => rw [hff] at h; exact absurd h (by simp)
    | ok p =>
      obtain ⟨r, i2⟩ := p
      rw [hff] at h
      cases r with
      | none => exact absurd h (by simp)
      | some v =>
        simp only [Except.ok.injEq, Prod.mk.injEq] at h
        rw [← h.1]
        simp [hmem]
  · have hnmem : f ∉ builtinFieldNames := fun hE =>
      hb ((contains_iff_mem _ _).mpr hE)
    rw [if_neg hb] at h
    cases hg : cfg.jira.customFields.getLast? with
    | some ck =>
      rw [hg] at h
      simp only [Except.ok.injEq, Prod.mk.injEq] at h
      rw [← h.1]
      have hne : cfg.jira.customFields ≠ [] := by
        intro hE; rw [hE] at hg; exact absurd hg (by simp)
      simp [hnmem, List.isEmpty_iff, hne]
    | none =>
      rw [hg] at h
      simp only [Except.ok.injEq, Prod.mk.injEq] at h
      rw [← h.1]
      have hnil : cfg.jira.customFields = [] := by
        simpa [List.getLast?_eq_none_iff] using hg
      simp [hnmem, List.isEmpty_iff, hnil]

/-- Every built-in formatter except Sprint returns the issue untouched. -/
lemma fieldFormatters_issue (cfg : Config) (issue : Issue) (f : String)
    (r : Option FmtRes) (i1 : Issue) (hf : ¬ f = "Sprint")
    (h : fieldFormatters cfg issue f = Except.ok (r, i1)) : i1 = issue := by
  unfold fieldFormatters at h
  split at h <;> simp_all <;> split at h <;> simp_all

/-- A non-Sprint field-loop iteration leaves the issue unchanged. -/
lemma composeField_issue (cfg : Config) (issue : Issue) (f : String)
    (hf : ¬ f = "Sprint") :
    sndIssue (composeField cfg issue f) issue = issue := by
  unfold composeField
  by_cases hb : builtinFieldNames.contains f = true
  · rw [if_pos hb]
    cases hff : fieldFormatters cfg issue f with
    | error e2 => simp [sndIssue]
    | ok p =>
      obtain ⟨r, i1⟩ := p
      have hi := fieldFormatters_issue cfg issue f r i1 hf hff
      subst hi
      cases r <;> simp [sndIssue]
  · rw [if_neg hb]
    cases cfg.jira.customFields.getLast? <;> simp [sndIssue]

/-- Reflexivity of the non-sprint frame relation. -/
lemma preservesNonSprint_refl (cfg : Config) (a : Issue) :
    PreservesNonSprint cfg a a :=
  ⟨rfl, rfl, rfl, rfl, rfl, rfl, rfl, rfl, rfl, fun _ _ => rfl⟩

/-- Transitivity of the non-sprint frame relation. -/
lemma preservesNonSprint_trans (cfg : Config) {a b c : Issue}
    (h1 : PreservesNonSprint cfg a b) (h2 : PreservesNonSprint cfg b c) :
    PreservesNonSprint cfg a c := by
  obtain ⟨k1, s1, d1, c1, u1, st1, p1, r1, a1, e1⟩ := h1
  obtain ⟨k2, s2, d2, c2, u2, st2, p2, r2, a2, e2⟩ := h2
  exact ⟨k2.trans k1, s2.trans s1, d2.trans d1, c2.trans c1, u2.trans u1,
    st2.trans st1, p2.trans p1, r2.trans r1, a2.trans a1,
    fun k hk => (e2 k hk).trans (e1 k hk)⟩

/-- Replacing one association-list binding leaves other keys unchanged. -/
lemma lookup_setAssoc_ne (key : String) (v : List String)
    (l : List (String × List String)) (k : String) (hk : k ≠ key) :
    (setAssoc key v l).lookup k = l.lookup k := by
  have hbeq : (k == key) = false := beq_eq_false_iff_ne.mpr hk
  induction l with
  | nil => simp [setAssoc]
  | cons p rest ih =>
    obtain ⟨k1, v1⟩ := p
    by_cases h1 : k1 = key
    · subst h1; simp [setAssoc, List.lookup, hbeq]
    · simp [setAssoc, h1, List.lookup, ih]

/-- Writing the sprint array back only touches the sprint key. -/
lemma writeExtra_preserves (cfg : Config) (issue : Issue)
    (v : Option (List String)) :
    PreservesNonSprint cfg issue (writeExtra issue cfg.jira.sprintField v) := by
  cases v with
  | none => exact preservesNonSprint_refl cfg issue
  | some l =>
    refine ⟨rfl, rfl, rfl, rfl, rfl, rfl, rfl, rfl, rfl, fun k hk => ?_⟩
    simp only [writeExtra]
    exact lookup_setAssoc_ne _ _ _ _ hk

/-- One field-loop iteration preserves everything but the sprint key. -/
lemma composeField_preserves (cfg : Config) (issue : Issue) (f : String) :
    PreservesNonSprint cfg issue (sndIssue (composeField cfg issue f) issue) := by
  by_cases hf : f = "Sprint"
  · subst hf
    unfold composeField
    rw [if_pos (by decide : builtinFieldNames.contains ("Sprint") = true)]
    by_cases hs : cfg.jira.sprintField = ""
    · simp only [fieldFormatters, hs, if_pos]
      simp [sndIssue]
      exact preservesNonSprint_refl cfg issue
    · simp only [fieldFormatters, hs, if_neg]
      simp [sndIssue]
      exact writeExtra_preserves cfg issue _
  · rw [composeField_issue cfg issue f hf]
    exact preservesNonSprint_refl cfg issue

/-- The whole field loop preserves everything but the sprint key. -/
lemma composeFields_preserves (cfg : Config) :
    ∀ (fl : List String) (issue : Issue),
      PreservesNonSprint cfg issue (sndIssue (composeFields cfg fl issue) issue) := by
  intro fl
  induction fl with
  | nil =>
    intro issue
    simp [composeFields, sndIssue]
    exact preservesNonSprint_refl cfg issue
  | cons f fs ih =>
    intro issue
    cases hcf : composeField cfg issue f with
    | error e2 =>
      simp [composeFields, hcf, sndIssue]
      exact preservesNonSprint_refl cfg issue
    | ok p =>
      obtain ⟨e, i1⟩ := p
      have h1 : PreservesNonSprint cfg issue i1 := by
        have := composeField_preserves cfg issue f
        rwa [hcf] at this
      cases hrest : composeFields cfg fs i1 with
      | error e2 =>
        simp [composeFields, hcf, hrest, sndIssue]
        exact preservesNonSprint_refl cfg issue
      | ok q =>
        obtain ⟨rest, i2⟩ := q
        have h2 : PreservesNonSprint cfg i1 i2 := by
          have := ih i1
          rwa [hrest] at this
        simp [composeFields, hcf, hrest, sndIssue]
        exact preservesNonSprint_trans cfg h1 h2

/-- Full composition preserves everything but the sprint key. -/
lemma issueResponse_preserves (cfg : Config) (issue : Issue) (format : String) :
    PreservesNonSprint cfg issue (sndIssue (issueResponse cfg issue format) issue) := by
  unfold issueResponse
  cases hlk : cfg.responseFormats.lookup format with
  | none => simp only [hlk]; exact preservesNonSprint_refl cfg issue
  | some rf =>
    simp only [hlk]
    cases hpre : renderTemplate rf.pretext issue with
    | error e => simp only [hpre]; exact preservesNonSprint_refl cfg issue
    | ok pretext =>
      simp only [hpre]
      have hfin :
          ∀ (title : Option String),
            PreservesNonSprint cfg issue
              (sndIssue
                (match
                  (match rf.fields with
                   | some fl => composeFields cfg fl issue
                   | none => Except.ok ([], issue)) with
                 | Except.error e => Except.error e
                 | Except.ok (fieldList, issue1) =>
                   Except.ok
                     ({ fallback := issue.fields.summary
                        respondInThread := rf.respondInThread
                        text := if rf.description = true
                          then some (formatIssueDescription issue.fields.description)
                          else none
                        mrkdwn_in := ["text"]
                        pretext := pretext
                        title := title
                        title_link := buildIssueLink cfg issue.key
                        footer := if rf.hideFooter = true then none else some footerText
                        fields := fieldList }, issue1) :
                  Except String (Attachment × Issue)) issue) := by
        intro title
        cases hfl : rf.fields with
        | none => exact preservesNonSprint_refl cfg issue
        | some fl =>
          cases hcfs : composeFields cfg fl issue with
          | error e => simp only [hcfs]; exact preservesNonSprint_refl cfg issue
          | ok q =>
            obtain ⟨l, i1⟩ := q
            simp only [hcfs]
            have hp := composeFields_preserves cfg fl issue
            rw [hcfs] at hp
            simpa [sndIssue] using hp
      cases ht : rf.title with
      | none => simp only [ht]; exact hfin issue.fields.summary
      | some t =>
        simp only [ht]
        cases hts : t issue with
        | error e => simp only [hts]; exact preservesNonSprint_refl cfg issue
        | ok s => simp only [hts]; exact hfin (some s)

/-- Greedy non-comma capture over a comma-free block stops at the comma. -/
lemma takeWhile_nonComma (v r1 : List Char) (hv : ∀ c ∈ v, c ≠ ',') :
    (v ++ ',' :: r1).takeWhile (fun c => c != ',') = v := by
  induction v with
  | nil => simp [List.takeWhile]
  | cons c cs ih =>
    have hc : c ≠ ',' := hv c (List.mem_cons_self c cs)
    simp only [List.cons_append, List.takeWhile_cons]
    rw [if_pos (by simpa using hc)]
    rw [ih (fun c1 hc1 => hv c1 (List.mem_cons_of_mem c hc1))]

/-- The remainder after the capture starts at the comma. -/
lemma dropWhile_nonComma (v r1 : List Char) (hv : ∀ c ∈ v, c ≠ ',') :
    (v ++ ',' :: r1).dropWhile (fun c => c != ',') = ',' :: r1 := by
  induction v with
  | nil => simp [List.dropWhile]
  | cons c cs ih =>
    have hc : c ≠ ',' := hv c (List.mem_cons_self c cs)
    simp only [List.cons_append, List.dropWhile_cons]
    rw [if_pos (by simpa using hc)]
    exact ih (fun c1 hc1 => hv c1 (List.mem_cons_of_mem c hc1))

/-! ## Claim C1 -/

/-- Claim C1: for every inbound message event, a direct-mention-style
event always selects the operator-configured at-mention profile, and
every other inbound event kind selects the per-conversation override
profile when a (truthy) one is configured for that conversation, else
the operator-configured default profile. -/
theorem dispatcher_profile_selection (cfg : Config) (msg : SlackMessage) :
    (msg.event = some ("direct_mention") →
      selectResponseFormat cfg msg = cfg.jira.atResponseFormat) ∧
    (msg.event ≠ some ("direct_mention") →
      ∀ c f, msg.channel = some c → cfg.channelFormats.lookup c = some f → f ≠ "" →
        selectResponseFormat cfg msg = f) ∧
    (msg.event ≠ some ("direct_mention") →
      (∀ c, msg.channel = some c → cfg.channelFormats.lookup c = none) →
      selectResponseFormat cfg msg = cfg.jira.responseFormat) := by
  refine ⟨fun h => by simp [selectResponseFormat, h], ?_, ?_⟩
  · intro h c f hc hf hfne
    simp [selectResponseFormat, h, hc, hf, hfne]
  · intro h hnone
    cases hch : msg.channel with
    | none => simp [selectResponseFormat, h, hch]
    | some c => simp [selectResponseFormat, h, hch, hnone c hch]

/-- Claim C1, witness: the three selection branches at concrete inputs. -/
theorem dispatcher_profile_selection_witness :
    selectResponseFormat cfgC1 msgDM = "full" ∧
    selectResponseFormat cfgC1 msgOv = "minimal" ∧
    selectResponseFormat cfgC1 msgPlain = "micro" :=
  ⟨(dispatcher_profile_selection cfgC1 msgDM).1 rfl,
   (dispatcher_profile_selection cfgC1 msgOv).2.1 (by decide) ("C42") ("minimal")
     rfl rfl (by decide),
   (dispatcher_profile_selection cfgC1 msgPlain).2.2 (by decide)
     (fun c hc => by
       simp only [msgPlain] at hc
       cases hc
       rfl)⟩

/-! ## Claim C2 -/

/-- Claim C2, counterexample: with no custom-field keys configured, the
unresolvable field name Mystery is pushed as a null entry rather than
omitted: the composed field list is the Status entry followed by null. -/
theorem unresolved_field_counterexample :
    (issueResponse cfgC2 issueC2 ("p")).map (fun r => r.1.fields)
      = Except.ok [some ⟨"Status", FieldValue.str ("Open"), true⟩, none] := rfl

/-- Claim C2, amended: entries appear in declared order under their
declared names, but a name that resolves to nothing is pushed as a null
placeholder entry (when no custom-field keys are configured), and a
built-in Sprint formatter with no sprint field configured makes the
whole composition throw a TypeError instead of omitting the entry. -/
theorem unresolved_field_amended :
    (∀ (cfg : Config) (issue : Issue) (fl : List String)
        (out : List (Option AttachmentField) × Issue),
      composeFields cfg fl issue = Except.ok out →
      out.1.map (Option.map AttachmentField.title)
        = fl.map (fun f =>
            if builtinFieldNames.contains f || !cfg.jira.customFields.isEmpty
            then some f else none)) ∧
    (∀ (cfg : Config) (issue : Issue), cfg.jira.sprintField = "" →
      composeField cfg issue ("Sprint")
        = Except.error "TypeError: Cannot set properties of undefined (setting title)") := by
  constructor
  · intro cfg issue fl
    induction fl generalizing issue with
    | nil =>
      intro out h
      simp only [composeFields, Except.ok.injEq] at h
      rw [← h]
      simp
    | cons f fs ih =>
      intro out h
      cases hcf : composeField cfg issue f with
      | error e2 => simp [composeFields, hcf] at h
      | ok p =>
        obtain ⟨e, i1⟩ := p
        cases hrest : composeFields cfg fs i1 with
        | error e2 => simp [composeFields, hcf, hrest] at h
        | ok q =>
          obtain ⟨rest, i2⟩ := q
          simp only [composeFields, hcf, hrest, Except.ok.injEq] at h
          rw [← h]
          simp only [List.map_cons]
          rw [composeField_title cfg issue f e i1 hcf, ih i1 (rest, i2) hrest]
  · intro cfg issue hsf
    simp [composeField, fieldFormatters, builtinFieldNames, hsf]

/-- Claim C2, witness: the amended statement at concrete inputs. -/
theorem unresolved_field_amended_witness :
    ([some ⟨"Status", FieldValue.str ("Open"), true⟩,
        (none : Option AttachmentField)].map (Option.map AttachmentField.title)
      = (["Status", "Mystery"]).map (fun f =>
          if builtinFieldNames.contains f || !cfgC2.jira.customFields.isEmpty
          then some f else none)) ∧
    composeField cfgC2 issueC2 ("Sprint")
      = Except.error "TypeError: Cannot set properties of undefined (setting title)" :=
  ⟨unresolved_field_amended.1 cfgC2 issueC2 ["Status", "Mystery"]
      ([some ⟨"Status", FieldValue.str ("Open"), true⟩, none], issueC2) rfl,
   unresolved_field_amended.2 cfgC2 issueC2 rfl⟩

/-! ## Claim C3 -/

/-- Claim C3, counterexample: at exactly the window boundary the repeat
is still suppressed.  A first allowed notification at time 1000000, then
a second call at 1000000 + 300000 (so the elapsed time equals the
window) yields the empty result, where the claim requires notification. -/
theorem suppress_boundary_counterexample :
    (parseTickets [] (some ("C1")) (some ("m")) (some ["PROJ-123"]) 1000000).1
      = ["PROJ-123"] ∧
    (parseTickets
        (parseTickets [] (some ("C1")) (some ("m")) (some ["PROJ-123"]) 1000000).2
        (some ("C1")) (some ("m")) (some ["PROJ-123"]) (1000000 + 300000)).1
      = [] := ⟨rfl, rfl⟩

/-- Claim C3, amended: after a first allowed notification at time now, a
second call for the same (conversation, key) at now + d is suppressed
when d ≤ W and allowed when d > W (strictly): the source compares with
strict greater-than, so the boundary point d = W is still suppressed. -/
theorem dedup_window_amended (buf : TicketBuffer) (ch m k : String) (now δ : Millis)
    (hch : ch ≠ "") (hm : m ≠ "")
    (hfresh : now - bufferGetD buf (hashTicket ch k) > TICKET_BUFFER_LENGTH) :
    (parseTickets buf (some ch) (some m) (some [k]) now).1 = [k] ∧
    ((parseTickets (parseTickets buf (some ch) (some m) (some [k]) now).2
        (some ch) (some m) (some [k]) (now + δ)).1
      = if δ > TICKET_BUFFER_LENGTH then [k] else []) := by
  have h1 := parseTickets_single buf ch m k now hch hm
  rw [if_pos hfresh] at h1
  refine ⟨by rw [h1], ?_⟩
  have h2 := parseTickets_single (bufferSet buf (hashTicket ch k) now) ch m k
    (now + δ) hch hm
  rw [bufferGetD_bufferSet_self, show now + δ - now = δ from by ring] at h2
  rw [h1]
  simp only [h2]
  by_cases hδ : δ > TICKET_BUFFER_LENGTH
  · simp [hδ]
  · simp [hδ]

/-- Claim C3, witness: the amended statement at concrete inputs. -/
theorem dedup_window_amended_witness :
    (parseTickets [] (some ("C1")) (some ("m")) (some ["A"]) 1000000).1 = ["A"] ∧
    ((parseTickets (parseTickets [] (some ("C1")) (some ("m")) (some ["A"]) 1000000).2
        (some ("C1")) (some ("m")) (some ["A"]) (1000000 + 300001)).1
      = if (300001 : Millis) > TICKET_BUFFER_LENGTH then ["A"] else []) :=
  dedup_window_amended [] ("C1") ("m") ("A") 1000000 300001
    (by decide) (by decide) (by decide)

/-! ## Claim C4 -/

/-- Claim C4, counterexample: a malformed title template makes the whole
composition fail: no attachment is produced at all, so nothing falls
back to the summary-based title or pretext. -/
theorem template_failure_counterexample :
    issueResponse cfgC4 issueC2 ("bad")
      = Except.error "SyntaxError: Unexpected token" := rfl

/-- Claim C4, amended: a template-rendering failure does not crash the
dispatcher and is confined to that single notification — the promise
catch logs it and the notification is dropped entirely; no fallback
attachment with the default summary title or pretext is produced, and
sibling notifications are handled independently. -/
theorem template_failure_amended :
    (∀ (cfg : Config) (msg : SlackMessage) (fetch : String → Except String Issue)
        (issueId : String) (issue : Issue) (e : String),
      fetch issueId = Except.ok issue →
      issueResponse cfg issue (selectResponseFormat cfg msg) = Except.error e →
      processIssue cfg msg fetch issueId
        = ProcessOutcome.errorLogged ("Got an error trying to find " ++ issueId)) ∧
    (∀ (cfg : Config) (msg : SlackMessage) (fetch : String → Except String Issue)
        (l1 l2 : List String),
      (l1 ++ l2).map (processIssue cfg msg fetch)
        = l1.map (processIssue cfg msg fetch) ++ l2.map (processIssue cfg msg fetch)) := by
  constructor
  · intro cfg msg fetch issueId issue e hf hr
    simp [processIssue, hf, hr]
  · intro cfg msg fetch l1 l2
    exact List.map_append _ l1 l2

/-- Claim C4, witness: the amended statement at concrete inputs. -/
theorem template_failure_amended_witness :
    processIssue cfgC4 msgC4 fetchC4 ("PROJ-1")
      = ProcessOutcome.errorLogged ("Got an error trying to find " ++ "PROJ-1") ∧
    (["A"] ++ ["B"]).map (processIssue cfgC4 msgC4 fetchC4)
      = (["A"] : List String).map (processIssue cfgC4 msgC4 fetchC4)
        ++ (["B"] : List String).map (processIssue cfgC4 msgC4 fetchC4) :=
  ⟨template_failure_amended.1 cfgC4 msgC4 fetchC4 ("PROJ-1") issueC2
      "SyntaxError: Unexpected token" rfl rfl,
   template_failure_amended.2 cfgC4 msgC4 fetchC4 ["A"] ["B"]⟩

/-! ## Claim C5 -/

/-- Claim C5, counterexample: composing a Sprint-bearing profile mutates
the issue: the sprint custom-field array loses its last element (the
source pops it), so the issue carried out of composition holds the
one-element array while the input issue held two elements. -/
theorem sprint_mutation_counterexample :
    (issueResponse cfg5 is5 ("sprints")).map (fun r => r.2.fields.extra)
      = Except.ok [("customfield_10000", ["x,name=S1,y"])] ∧
    is5.fields.extra = [("customfield_10000", ["x,name=S1,y", "x,name=S2,y"])] :=
  ⟨rfl, rfl⟩

/-- Claim C5, amended: composing an attachment reads the issue without
mutation except in the Sprint formatter, which removes the last element
of the configured sprint custom-field array (Array.pop); every
non-Sprint field step returns the issue unchanged, and the whole
composition agrees with the input issue on every field other than the
sprint key. -/
theorem compose_mutation_amended :
    (∀ (cfg : Config) (issue : Issue) (f : String), ¬ f = "Sprint" →
      sndIssue (composeField cfg issue f) issue = issue) ∧
    (∀ (cfg : Config) (issue : Issue) (format : String),
      PreservesNonSprint cfg issue (sndIssue (issueResponse cfg issue format) issue)) :=
  ⟨composeField_issue, issueResponse_preserves⟩

/-- Claim C5, witness: the amended statement at concrete inputs. -/
theorem compose_mutation_amended_witness :
    sndIssue (composeField cfgC2 issueC2 ("Status")) issueC2 = issueC2 ∧
    PreservesNonSprint cfg5 is5 (sndIssue (issueResponse cfg5 is5 ("sprints")) is5) :=
  ⟨compose_mutation_amended.1 cfgC2 issueC2 ("Status") (by decide),
   compose_mutation_amended.2 cfg5 is5 ("sprints")⟩

/-! ## Claim C6 -/

/-- Claim C6: a call that allows a ticket records a fresh dedup entry at
the current time in the same step (check-and-set before anything
asynchronous), and a suppressed call leaves the dedup state completely
unchanged — the suppressed repeat does not bump the stored timestamp. -/
theorem dedup_write_on_allow (buf : TicketBuffer) (ch m k : String) (now : Millis)
    (hch : ch ≠ "") (hm : m ≠ "") :
    (now - bufferGetD buf (hashTicket ch k) > TICKET_BUFFER_LENGTH →
      parseTickets buf (some ch) (some m) (some [k]) now
        = ([k], bufferSet buf (hashTicket ch k) now)) ∧
    (¬ now - bufferGetD buf (hashTicket ch k) > TICKET_BUFFER_LENGTH →
      parseTickets buf (some ch) (some m) (some [k]) now = ([], buf)) := by
  constructor
  · intro hfresh
    rw [parseTickets_single buf ch m k now hch hm, if_pos hfresh]
  · intro hstale
    rw [parseTickets_single buf ch m k now hch hm, if_neg hstale]

/-- Claim C6, witness: an allowed call writes the entry; a suppressed
call returns the buffer unchanged. -/
theorem dedup_write_on_allow_witness :
    parseTickets [] (some ("C1")) (some ("m")) (some ["A"]) 1000000
      = (["A"], bufferSet [] (hashTicket ("C1") ("A")) 1000000) ∧
    parseTickets [("C1-A", 900000)] (some ("C1")) (some ("m")) (some ["A"]) 1000000
      = ([], [("C1-A", 900000)]) :=
  ⟨(dedup_write_on_allow [] ("C1") ("m") ("A") 1000000 (by decide) (by decide)).1
      (by decide),
   (dedup_write_on_allow [("C1-A", 900000)] ("C1") ("m") ("A") 1000000
      (by decide) (by decide)).2 (by decide)⟩

/-! ## Claim C7 -/

/-- Claim C7: for a non-empty encoded sprint list the formatter takes the
last element (pop) and extracts the name token from it by the regex
pattern; in particular the two-sprint example yields Sprint 8
(last-wins), and when no name token matches, the formatter yields the
literal Not Assigned rather than omitting the entry. -/
theorem sprint_last_wins :
    (∀ (l : List String), l ≠ [] →
      parseSprint (some l)
        = ((matchSprintName (l.getLastD (""))).getD (""), some l.dropLast)) ∧
    (∀ (v r1 : List Char), v ≠ [] → (∀ c ∈ v, c ≠ ',') →
      findNameToken (',' :: 'n' :: 'a' :: 'm' :: 'e' :: '=' :: (v ++ ',' :: r1))
        = some v) ∧
    (∀ (cfg : Config) (issue : Issue) (l : List String),
      ¬ cfg.jira.sprintField = "" →
      issue.fields.extra.lookup cfg.jira.sprintField = some l → l ≠ [] →
      matchSprintName (l.getLastD ("")) = none →
      composeField cfg issue ("Sprint")
        = Except.ok (some ⟨"Sprint", FieldValue.str ("Not Assigned"), false⟩,
            writeExtra issue cfg.jira.sprintField (some l.dropLast))) ∧
    (parseSprint (some ["s,name=Sprint 7,q", "s,name=Sprint 8,q"])).1 = "Sprint 8" := by
  refine ⟨?_, ?_, ?_, rfl⟩
  · intro l hl
    simp only [parseSprint]
    rw [if_pos (by simpa using List.length_pos.mpr hl)]
    cases matchSprintName (l.getLastD ("")) <;> simp
  · intro v r1 hne hv
    rw [findNameToken]
    have hcap : captureName (v ++ ',' :: r1) = some v := by
      unfold captureName
      rw [takeWhile_nonComma v r1 hv, dropWhile_nonComma v r1 hv]
      rw [if_neg hne, if_neg (by simp)]
    rw [hcap]
  · intro cfg issue l hsf hlk hl hm
    have hps : parseSprint (some l) = ("", some l.dropLast) := by
      simp only [parseSprint]
      rw [if_pos (by simpa using List.length_pos.mpr hl), hm]
    have hff : fieldFormatters cfg issue ("Sprint")
        = Except.ok (some ⟨FieldValue.str ("Not Assigned"), false⟩,
            writeExtra issue cfg.jira.sprintField (some l.dropLast)) := by
      simp only [fieldFormatters]
      rw [if_neg hsf, hlk, hps]
      simp [jsOr]
    unfold composeField
    rw [if_pos (by decide : builtinFieldNames.contains ("Sprint") = true)]
    rw [hff]

/-- Claim C7, witness: the last-element equation, the anchored name
capture, and the Not Assigned fallback at concrete inputs. -/
theorem sprint_last_wins_witness :
    parseSprint (some ["junk"])
      = ((matchSprintName ((["junk"] : List String).getLastD (""))).getD (""),
         some (["junk"] : List String).dropLast) ∧
    findNameToken (',' :: 'n' :: 'a' :: 'm' :: 'e' :: '=' ::
        (['S', '9'] ++ ',' :: ['q'])) = some ['S', '9'] ∧
    composeField cfg7 issue7 ("Sprint")
      = Except.ok (some ⟨"Sprint", FieldValue.str ("Not Assigned"), false⟩,
          writeExtra issue7 cfg7.jira.sprintField
            (some (["a,name=Alpha,b", "junk"] : List String).dropLast)) :=
  ⟨sprint_last_wins.1 ["junk"] (by decide),
   sprint_last_wins.2.1 ['S', '9'] ['q'] (by decide) (by decide),
   sprint_last_wins.2.2.1 cfg7 issue7 ["a,name=Alpha,b", "junk"]
     (by decide) rfl (by decide) rfl⟩

/-! ## Claim C8 -/

/-- Claim C8: on a text whose pattern occurrences are given in order
(duplicates included), with no prior dedup state, extraction returns
each distinct identifier exactly once at the position of its first
occurrence, distinct identifiers in order of first appearance. -/
theorem extract_first_occurrence (found : List String) (ch m : String) (now : Millis)
    (hch : ch ≠ "") (hm : m ≠ "") (hnow : now > TICKET_BUFFER_LENGTH) :
    (parseTickets [] (some ch) (some m) (some found) now).1
      = dedupFirstFrom [] found := by
  cases found with
  | nil => simp [parseTickets, hch, hm, dedupFirstFrom]
  | cons t ts =>
    have h := parseTicketsLoop_fresh ch now hnow (t :: ts)
      { retVal := [], uniques := [], ticketBuffer := [] } (by intro t1 _; rfl)
    simp [parseTickets, hch, hm, h]

/-- Claim C8, witness: a duplicated occurrence list collapses to first
occurrences in order. -/
theorem extract_first_occurrence_witness :
    (parseTickets [] (some ("C1")) (some ("m"))
        (some ["PROJ-123", "AB-1", "PROJ-123"]) 1000000).1
      = dedupFirstFrom [] ["PROJ-123", "AB-1", "PROJ-123"] :=
  extract_first_occurrence ["PROJ-123", "AB-1", "PROJ-123"] ("C1") ("m") 1000000
    (by decide) (by decide) (by decide)

/-! ## Claim C9 -/

/-- Claim C9: an absent or empty message text, or an absent or empty
conversation identifier, makes extraction return the empty sequence with
the buffer untouched — handled as an empty result, never as an error
(the embedding is total, so no failure is possible on this path). -/
theorem empty_input_extraction (buf : TicketBuffer) (channel message : Option String)
    (found : Option (List String)) (now : Millis)
    (h : channel = none ∨ channel = some ("") ∨ message = none ∨ message = some ("")) :
    parseTickets buf channel message found now = ([], buf) := by
  rcases h with h | h | h | h <;> subst h
  · cases message <;> rfl
  · cases message with
    | none => rfl
    | some m => simp [parseTickets]
  · cases channel <;> rfl
  · cases channel with
    | none => rfl
    | some c => by_cases hc : c = "" <;> simp [parseTickets, hc]

/-- Claim C9, witness: an absent channel with non-empty text and matches
still yields the empty result and an unchanged buffer. -/
theorem empty_input_extraction_witness :
    parseTickets [("C1-A", 5)] none (some ("m")) (some ["A"]) 99
      = ([], [("C1-A", 5)]) :=
  empty_input_extraction [("C1-A", 5)] none (some ("m")) (some ["A"]) 99 (Or.inl rfl)

/-! ## Claim C10 -/

/-- Claim C10, counterexample: an issue missing created and updated (but
carrying status, priority and reporter) still composes successfully
under a profile listing every built-in field: moment tolerates an absent
timestamp, so created and updated do not belong in the totality
precondition. -/
theorem created_absent_counterexample :
    isOkResult (issueResponse cfgC10 issueC10 ("full")) = true ∧
    issueC10.fields.created = none ∧ issueC10.fields.updated = none :=
  ⟨rfl, rfl, rfl⟩

/-- Claim C10, amended: among the built-in formatters, exactly Status,
Priority and Reporter dereference their issue field unconditionally and
throw when it is absent; Assignee tolerates absence with the literal
Unassigned, and Created and Updated are total because moment accepts an
absent timestamp. -/
theorem builtin_field_totality_amended :
    (∀ (cfg : Config) (issue : Issue), issue.fields.status = none →
      composeField cfg issue ("Status")
        = Except.error "TypeError: Cannot read properties of undefined (reading name)") ∧
    (∀ (cfg : Config) (issue : Issue), issue.fields.priority = none →
      composeField cfg issue ("Priority")
        = Except.error "TypeError: Cannot read properties of undefined (reading name)") ∧
    (∀ (cfg : Config) (issue : Issue), issue.fields.reporter = none →
      composeField cfg issue ("Reporter")
        = Except.error "TypeError: Cannot read properties of undefined (reading name)") ∧
    (∀ (cfg : Config) (issue : Issue), issue.fields.assignee = none →
      composeField cfg issue ("Assignee")
        = Except.ok (some ⟨"Assignee", FieldValue.str ("Unassigned"), true⟩, issue)) ∧
    (∀ (cfg : Config) (issue : Issue),
      composeField cfg issue ("Created")
        = Except.ok (some ⟨"Created",
            FieldValue.str (momentCalendar issue.fields.created), true⟩, issue)) ∧
    (∀ (cfg : Config) (issue : Issue),
      composeField cfg issue ("Updated")
        = Except.ok (some ⟨"Updated",
            FieldValue.str (momentCalendar issue.fields.updated), true⟩, issue)) := by
  refine ⟨?_, ?_, ?_, ?_, ?_, ?_⟩ <;>
    (first
      | (intro cfg issue h
         unfold composeField
         rw [if_pos (by decide)]
         simp [fieldFormatters, h])
      | (intro cfg issue
         unfold composeField
         rw [if_pos (by decide)]
         simp [fieldFormatters]))

/-- Claim C10, witness: the amended statement at concrete issues. -/
theorem builtin_field_totality_amended_witness :
    composeField cfg7 is5 ("Status")
      = Except.error "TypeError: Cannot read properties of undefined (reading name)" ∧
    composeField cfg7 is5 ("Priority")
      = Except.error "TypeError: Cannot read properties of undefined (reading name)" ∧
    composeField cfg7 is5 ("Reporter")
      = Except.error "TypeError: Cannot read properties of undefined (reading name)" ∧
    composeField cfg7 is5 ("Assignee")
      = Except.ok (some ⟨"Assignee", FieldValue.str ("Unassigned"), true⟩, is5) ∧
    composeField cfg7 issueC10 ("Created")
      = Except.ok (some ⟨"Created",
          FieldValue.str (momentCalendar issueC10.fields.created), true⟩, issueC10) ∧
    composeField cfg7 issueC10 ("Updated")
      = Except.ok (some ⟨"Updated",
          FieldValue.str (momentCalendar issueC10.fields.updated), true⟩, issueC10) :=
  ⟨builtin_field_totality_amended.1 cfg7 is5 rfl,
   builtin_field_totality_amended.2.1 cfg7 is5 rfl,
   builtin_field_totality_amended.2.2.1 cfg7 is5 rfl,
   builtin_field_totality_amended.2.2.2.1 cfg7 is5 rfl,
   builtin_field_totality_amended.2.2.2.2.1 cfg7 issueC10,
   builtin_field_totality_amended.2.2.2.2.2 cfg7 issueC10⟩

end JiraBot
